import Mathlib

/-!
Verification of the audio-capture engine of the `epicenter` repository
(`apps/whispering/src-tauri/src/recorder`): a shallow embedding of the
Linux GStreamer recording backend (`gstreamer_recorder.rs`), the backend
selector facade (`commands.rs`), and the PCM stream encoder it drives.
Fallible external operations (GStreamer element construction, pipeline
state changes, file creation and removal, mutex locking) are modelled by
an explicit environment record saying which of them succeed; the
filesystem is modelled as the list of existing file paths.  Every `&mut
self` method of the Rust source becomes a function `World → World ×
Except Err α`, so that state mutations performed before an early error
return stay visible, exactly as in Rust.
-/

deriving instance DecidableEq for Except

namespace Whispering

/-- Errors are plain strings in the source (`type Result<T> = Result<T, String>`). -/
abbrev Err := String

/-- Modelled from the spec: the PCM Stream Encoder (`WavWriter`,
`wav_writer.rs`, not present under `src/`).  Per spec section 4.5 it owns
an open file handle, a running sample counter, and a sample rate and
channel count fixed at creation; `finalize` patches the header and closes,
and after finalize further writes are invalid. -/
structure WavWriter where
  path : String
  sample_rate : Nat
  channels : Nat
  samples_written : Nat
  finalized : Bool
deriving Repr, DecidableEq

/-- GStreamer pipeline element state: only `Null` and `Playing` are used
by the recorder (`State::Playing` on start, `State::Null` on stop). -/
inductive GstState where
  | null
  | playing
deriving Repr, DecidableEq

/-- The caps/format filter configuration set on the `capsfilter` element
in `init_session` (lines 101-108 of `gstreamer_recorder.rs`).  The
`rate` and `channels` fields are `i32` in the GStreamer API; the source
converts with `as i32` casts, so they are modelled as wrapped signed
32-bit values. -/
structure Caps where
  format : String
  rate : Int
  channels : Int
  layout : String
deriving Repr, DecidableEq

/-- A live GStreamer pipeline as far as the recorder observes it: its
element state and the caps filter it was built with. -/
structure Pipeline where
  gstate : GstState
  caps : Caps
deriving Repr, DecidableEq

/-- The recorder state (the fields of `struct GStreamerRecorder`)
together with the observable world: the filesystem (list of existing
file paths) and a count of live native pipeline objects held by the
recorder, used to state the single-session / no-double-free invariants. -/
structure World where
  pipeline : Option Pipeline
  writer : Option WavWriter
  is_recording : Bool
  sample_rate : Nat
  channels : Nat
  file_path : Option String
  fs : List String
  live : Nat
deriving Repr, DecidableEq

/-- Environment of fallible external operations: which of them succeed
during a given call.  Each flag corresponds to one fallible call site in
`gstreamer_recorder.rs`. -/
structure Env where
  wavCreateOk : Bool
  pipewiresrcOk : Bool
  pulsesrcOk : Bool
  autoaudiosrcOk : Bool
  audioconvertOk : Bool
  audioresampleOk : Bool
  capsfilterOk : Bool
  appsinkOk : Bool
  addOk : Bool
  linkOk : Bool
  setPlayingOk : Bool
  setNullOk : Bool
  removeOk : Bool
  lockOk : Bool
  finalizeOk : Bool
deriving Repr, DecidableEq

/-- The fully cooperative environment: every external operation succeeds. -/
def envOk : Env :=
  { wavCreateOk := true, pipewiresrcOk := true, pulsesrcOk := true,
    autoaudiosrcOk := true, audioconvertOk := true, audioresampleOk := true,
    capsfilterOk := true, appsinkOk := true, addOk := true, linkOk := true,
    setPlayingOk := true, setNullOk := true, removeOk := true,
    lockOk := true, finalizeOk := true }

/-- Reduction of a natural number into a signed 32-bit value, the meaning
of Rust's `as i32` cast applied to a `u32`. -/
def toI32 (n : Nat) : Int :=
  let m := n % 4294967296
  if m < 2147483648 then (m : Int) else (m : Int) - 4294967296

/-- Test whether a string begins with the path separator. -/
def isAbsolutePath (s : String) : Bool :=
  s.data.head? = some '/'

/-- Test whether a string ends with the path separator. -/
def endsWithSep (s : String) : Bool :=
  s.data.getLast? = some '/'

/-- Semantics of Rust's `PathBuf::join` for Unix paths: an absolute
component replaces the base path entirely; otherwise a separator is
inserted unless the base already ends with one or is empty. -/
def pathJoin (base comp : String) : String :=
  if isAbsolutePath comp then comp
  else if endsWithSep base || base = "" then base ++ comp
  else base ++ "/" ++ comp

/-- Modelled from the spec: `WavWriter::new(path, sample_rate, channels)`
(spec section 4.5 `create`): opens the file for writing (creating it on
disk) and writes a placeholder header; fails with an IO error when the
file cannot be created.  Returns the writer and the updated filesystem. -/
def WavWriter.new (env : Env) (path : String) (rate ch : Nat)
    (fs : List String) : Except Err (WavWriter × List String) :=
  if env.wavCreateOk then
    Except.ok ({ path := path, sample_rate := rate, channels := ch,
                 samples_written := 0, finalized := false }, fs.insert path)
  else Except.error "Failed to create WAV file"

/-- Modelled from the spec: `WavWriter::write_samples_f32` (spec section
4.5 `write_samples`): appends the buffer and advances the running sample
counter; after finalize further writes are invalid and do nothing. -/
def WavWriter.write_samples_f32 (wr : WavWriter) (n : Nat) : WavWriter :=
  if wr.finalized then wr
  else { wr with samples_written := wr.samples_written + n }

/-- Modelled from the spec: `WavWriter::finalize` (spec section 4.5):
patches the header, flushes and closes; may fail with an IO error. -/
def WavWriter.finalize (env : Env) (wr : WavWriter) :
    WavWriter × Except Err Unit :=
  if env.finalizeOk then ({ wr with finalized := true }, Except.ok ())
  else (wr, Except.error "Failed to finalize WAV")

/-- Modelled from the spec: the duration reported by
`WavWriter::get_metadata`, `duration_seconds = total_samples_written /
(sample_rate * channels)` (spec section 4.5). -/
def WavWriter.durationSeconds (wr : WavWriter) : ℚ :=
  (wr.samples_written : ℚ) / ((wr.sample_rate : ℚ) * (wr.channels : ℚ))

/-- The `AudioRecording` result struct (`recorder.rs`), as populated by
the GStreamer backend: `audio_data` is always left empty because this
backend streams to disk. -/
structure AudioRecording where
  audio_data : List Nat
  sample_rate : Nat
  channels : Nat
  duration_seconds : ℚ
  file_path : Option String
deriving Repr, DecidableEq

/-- The state `GStreamerRecorder::new()` returns on success (lines
32-39): no pipeline, no writer, flag false, zero format fields.  The
filesystem starts empty and no native pipeline object is live. -/
def initialWorld : World :=
  { pipeline := none, writer := none, is_recording := false,
    sample_rate := 0, channels := 0, file_path := none,
    fs := [], live := 0 }

/-- ASCII lowercasing of a device name, the meaning of `str::to_lowercase`
on the ASCII device names the recorder deals with. -/
def lowerAscii (s : String) : String :=
  String.mk (s.data.map Char.toLower)

/-- Which source element `create_audio_source` ends up building. -/
inductive SrcKind where
  | pipewire
  | pulse
  | auto
deriving Repr, DecidableEq

/-- `GStreamerRecorder::create_audio_source` (lines 174-216): matches the
lowercased device name; `default` tries pipewiresrc, then pulsesrc, then
autoaudiosrc; a specific name tries pipewiresrc then pulsesrc and fails
when neither factory is available. -/
def createAudioSource (env : Env) (device_name : String) : Except Err SrcKind :=
  let d := lowerAscii device_name
  if d = "default" then
    if env.pipewiresrcOk then Except.ok SrcKind.pipewire
    else if env.pulsesrcOk then Except.ok SrcKind.pulse
    else if env.autoaudiosrcOk then Except.ok SrcKind.auto
    else Except.error "Failed to create audio source"
  else if d = "pipewire" then
    if env.pipewiresrcOk then Except.ok SrcKind.pipewire
    else Except.error "Failed to create pipewiresrc"
  else if d = "pulse" then
    if env.pulsesrcOk then Except.ok SrcKind.pulse
    else Except.error "Failed to create pulsesrc"
  else
    if env.pipewiresrcOk then Except.ok SrcKind.pipewire
    else if env.pulsesrcOk then Except.ok SrcKind.pulse
    else Except.error "Cannot create audio source for device"

/-- `GStreamerRecorder::close_session` (lines 294-317): clears the
recording flag, takes and drops the pipeline if present (releasing the
native object), takes the writer, best-effort finalizes and drops it,
and clears all remaining session fields.  Always returns `Ok(())`. -/
def closeSession (w : World) : World × Except Err Unit :=
  let w1 := { w with is_recording := false }
  let w2 := match w1.pipeline with
    | some _ => { w1 with pipeline := none, live := w1.live - 1 }
    | none => w1
  let w3 := match w2.writer with
    | some _ => { w2 with writer := none }
    | none => w2
  ({ w3 with file_path := none, sample_rate := 0, channels := 0 },
   Except.ok ())

/-- The sample rate resolved by `init_session`:
`preferred_sample_rate.unwrap_or(16000)` (line 74). -/
def resolvedSampleRate (preferred_sample_rate : Option Nat) : Nat :=
  preferred_sample_rate.getD 16000

/-- The body of `init_session` after the initial `self.close_session()?`
(lines 70-170): computes the destination path and format, creates the
WAV writer (creating the file on disk), builds the source, convert,
resample, capsfilter and appsink elements, adds and links them, wires
the sample callback, and only then stores everything on the struct.  On
any failure the struct keeps the fields `close_session` left, but a file
already created stays on disk. -/
def initSessionBody (env : Env) (device_name output_folder recording_id : String)
    (preferred_sample_rate : Option Nat) (w : World) :
    World × Except Err Unit :=
  let fp := pathJoin output_folder (recording_id ++ ".wav")
  let rate := resolvedSampleRate preferred_sample_rate
  let ch := 1
  match WavWriter.new env fp rate ch w.fs with
  | Except.error e => (w, Except.error e)
  | Except.ok (wr, fs') =>
    let w := { w with fs := fs' }
    match createAudioSource env device_name with
    | Except.error e => (w, Except.error e)
    | Except.ok _src =>
      if !env.audioconvertOk then (w, Except.error "Failed to create audioconvert")
      else if !env.audioresampleOk then (w, Except.error "Failed to create audioresample")
      else if !env.capsfilterOk then (w, Except.error "Failed to create capsfilter")
      else if !env.appsinkOk then (w, Except.error "Failed to create appsink")
      else if !env.addOk then (w, Except.error "Failed to add elements to pipeline")
      else if !env.linkOk then (w, Except.error "Failed to link pipeline elements")
      else
        ({ w with
            pipeline := some { gstate := GstState.null,
                               caps := { format := "F32LE", rate := toI32 rate,
                                         channels := toI32 ch,
                                         layout := "interleaved" } },
            writer := some wr,
            is_recording := false,
            sample_rate := rate, channels := ch,
            file_path := some fp,
            live := w.live + 1 }, Except.ok ())

/-- `GStreamerRecorder::init_session` (lines 58-171): first cleans up any
existing session via `self.close_session()?` (line 68), then runs the
session construction body. -/
def initSession (env : Env) (device_name output_folder recording_id : String)
    (preferred_sample_rate : Option Nat) (w : World) :
    World × Except Err Unit :=
  initSessionBody env device_name output_folder recording_id
    preferred_sample_rate (closeSession w).1

/-- `GStreamerRecorder::start_recording` (lines 219-231): with no
pipeline, fails with `No recording session initialized` and changes
nothing; otherwise sets the pipeline to `Playing` (propagating a state
change failure before touching the flag) and only then stores `true`
into the recording flag. -/
def startRecording (env : Env) (w : World) : World × Except Err Unit :=
  match w.pipeline with
  | some p =>
      if env.setPlayingOk then
        ({ w with pipeline := some { p with gstate := GstState.playing },
                  is_recording := true }, Except.ok ())
      else (w, Except.error "Failed to start pipeline")
  | none => (w, Except.error "No recording session initialized")

/-- The first statement of `stop_recording` (line 236): store `false`
into the shared recording flag, before anything else. -/
def stopStoreFlag (w : World) : World :=
  { w with is_recording := false }

/-- The tail of `stop_recording` after the pipeline halt (lines
244-269): finalizes the writer under its lock when present, and builds
the `AudioRecording` result from the writer metadata (or from the bare
struct fields with duration zero when no writer exists). -/
def stopAfterHalt (env : Env) (w : World) : World × Except Err AudioRecording :=
  match w.writer with
  | some wr =>
      if env.lockOk then
        match WavWriter.finalize env wr with
        | (wr', Except.ok _) =>
            ({ w with writer := some wr' },
             Except.ok { audio_data := [], sample_rate := wr'.sample_rate,
                         channels := wr'.channels,
                         duration_seconds := wr'.durationSeconds,
                         file_path := w.file_path })
        | (wr', Except.error e) =>
            ({ w with writer := some wr' }, Except.error e)
      else (w, Except.error "Failed to lock writer")
  | none =>
      (w, Except.ok { audio_data := [], sample_rate := w.sample_rate,
                      channels := w.channels, duration_seconds := 0,
                      file_path := w.file_path })

/-- The part of `stop_recording` that runs after the flag store: halt
the pipeline if present (lines 239-242, propagating failure), then
finalize and report. -/
def stopTeardown (env : Env) (w : World) : World × Except Err AudioRecording :=
  match w.pipeline with
  | some p =>
      if env.setNullOk then
        stopAfterHalt env { w with pipeline := some { p with gstate := GstState.null } }
      else (w, Except.error "Failed to stop pipeline")
  | none => stopAfterHalt env w

/-- `GStreamerRecorder::stop_recording` (lines 234-270): flag store
first, then pipeline halt, then finalize. -/
def stopRecording (env : Env) (w : World) : World × Except Err AudioRecording :=
  stopTeardown env (stopStoreFlag w)

/-- `GStreamerRecorder::cancel_recording` (lines 273-291): clears the
flag, best-effort halts the pipeline (result ignored), best-effort
removes the destination file (`std::fs::remove_file(file_path).ok()`),
then clears the whole session via `self.close_session()?`. -/
def cancelRecording (env : Env) (w : World) : World × Except Err Unit :=
  let w1 := { w with is_recording := false }
  let w2 := match w1.pipeline with
    | some p =>
        if env.setNullOk then { w1 with pipeline := some { p with gstate := GstState.null } }
        else w1
    | none => w1
  let w3 := match w2.file_path with
    | some fp => if env.removeOk then { w2 with fs := w2.fs.erase fp } else w2
    | none => w2
  match closeSession w3 with
  | (w4, Except.ok _) => (w4, Except.ok ())
  | (w4, Except.error e) => (w4, Except.error e)

/-- `GStreamerRecorder::enumerate_devices` (lines 43-55): pushes the
three fixed logical names and returns them; the actual device query is
left unimplemented in the source.  Takes `&self`: no state change. -/
def enumerateDevices (_w : World) : Except Err (List String) :=
  Except.ok ["default", "pipewire", "pulse"]

/-- The final path component, as `Path::file_name` computes it on a Unix
path (the substring after the last separator). -/
def fileNameOf (p : String) : String :=
  ((p.splitOn "/").getLast?).getD ""

/-- Semantics of Rust's `Path::file_stem` on a file name: the whole name
when it has no embedded dot, the whole name when it starts with a dot
and has no other dot, and otherwise the portion before the final dot. -/
def fileStem (name : String) : Option String :=
  if name = "" then none
  else
    let parts := name.splitOn "."
    if parts.length ≤ 1 then some name
    else if name.startsWith "." && parts.length = 2 then some name
    else some (String.intercalate "." parts.dropLast)

/-- `GStreamerRecorder::get_current_recording_id` (lines 320-330): when
the recording flag reads true, the file stem of the destination path;
otherwise `None`. -/
def getCurrentRecordingId (w : World) : Option String :=
  if w.is_recording then
    w.file_path.bind (fun p => fileStem (fileNameOf p))
  else none

/-- The appsink `new_sample` callback (lines 128-154) receiving a buffer
of `n` samples: only when the shared recording flag reads true does it
pull the sample and forward it to the writer (whose own write result is
discarded); otherwise the buffer is dropped and nothing changes. -/
def deliverBuffer (n : Nat) (w : World) : World :=
  if w.is_recording then
    match w.writer with
    | some wr => { w with writer := some (wr.write_samples_f32 n) }
    | none => w
  else w

/-- The encoder's running sample counter as observable on the recorder
state (zero when no writer exists). -/
def writtenSamples (w : World) : Nat :=
  match w.writer with
  | some wr => wr.samples_written
  | none => 0

/-- One externally triggered event against the recorder: a control-path
operation or a callback buffer delivery. -/
inductive Op where
  | initSes (device_name output_folder recording_id : String)
      (preferred_sample_rate : Option Nat)
  | start
  | stop
  | cancel
  | close
  | enumerate
  | getId
  | deliver (n : Nat)
deriving Repr, DecidableEq

/-- State effect of one event (read-only operations leave the world
unchanged; results are dropped, only the state evolution is kept). -/
def step (env : Env) (op : Op) (w : World) : World :=
  match op with
  | Op.initSes d f r p => (initSession env d f r p w).1
  | Op.start => (startRecording env w).1
  | Op.stop => (stopRecording env w).1
  | Op.cancel => (cancelRecording env w).1
  | Op.close => (closeSession w).1
  | Op.enumerate => w
  | Op.getId => w
  | Op.deliver n => deliverBuffer n w

/-- Run a trace of events, each with its own environment of external
outcomes, from a starting world. -/
def runTrace (tr : List (Env × Op)) (w : World) : World :=
  tr.foldl (fun w p => step p.1 p.2 w) w

/-- The session-resource invariant: the number of live native pipeline
objects equals one exactly when the struct holds a pipeline. -/
def sessionInv (w : World) : Prop :=
  w.live = (if w.pipeline.isSome then 1 else 0)

/-- `GStreamerRecorder::new` (lines 23-40): initializes GStreamer
(fallible) and on success returns the empty recorder state. -/
def GStreamerRecorder.new (gstInitOk : Bool) : Except Err World :=
  if gstInitOk then Except.ok initialWorld
  else Except.error "Failed to initialize GStreamer"

/-- The backend selector (`AudioRecorderImpl` in `commands.rs`): either
the cross-platform CPAL recorder (its state lives outside `src/`) or the
Linux GStreamer recorder. -/
inductive AudioRecorderImpl where
  | cpal
  | gstreamer (w : World)
deriving Repr, DecidableEq

/-- `AudioRecorderImpl::new` (commands.rs lines 17-35): on the Linux
target, tries the GStreamer backend first and on failure logs a warning
and falls through; every path ends in `Ok`, with CPAL as the fallback on
all platforms. -/
def AudioRecorderImpl.new (isLinux gstInitOk : Bool) :
    Except Err AudioRecorderImpl :=
  if isLinux then
    match GStreamerRecorder.new gstInitOk with
    | Except.ok r => Except.ok (AudioRecorderImpl.gstreamer r)
    | Except.error _ => Except.ok AudioRecorderImpl.cpal
  else Except.ok AudioRecorderImpl.cpal

/-- `AppData::new` (commands.rs lines 110-120): builds the recorder and
on the (unreachable) error path falls back to CPAL via
`unwrap_or_else`, so construction of the facade never fails. -/
def AppData.new (isLinux gstInitOk : Bool) : AudioRecorderImpl :=
  match AudioRecorderImpl.new isLinux gstInitOk with
  | Except.ok r => r
  | Except.error _ => AudioRecorderImpl.cpal

/-- A concrete session: the world after a successful `init_session` with
device `default`, output folder `out`, recording id `rec1`, no preferred
sample rate, starting from the fresh recorder. -/
def wInit : World := (initSession envOk "default" "out" "rec1" none initialWorld).1

/-- Environment in which `std::fs::remove_file` fails (everything else
succeeds). -/
def envNoRemove : Env := { envOk with removeOk := false }

/-- Environment in which WAV file creation fails (everything else
succeeds). -/
def envNoWav : Env := { envOk with wavCreateOk := false }

theorem closeSession_snd (w : World) : (closeSession w).2 = Except.ok () := by
  obtain ⟨pl, wr, rec, sr, ch, fp, fs, lv⟩ := w
  cases pl <;> cases wr <;> rfl

theorem closeSession_fields (w : World) :
    (closeSession w).1.pipeline = none ∧ (closeSession w).1.writer = none ∧
    (closeSession w).1.is_recording = false ∧
    (closeSession w).1.file_path = none ∧
    (closeSession w).1.sample_rate = 0 ∧ (closeSession w).1.channels = 0 ∧
    (closeSession w).1.fs = w.fs := by
  obtain ⟨pl, wr, rec, sr, ch, fp, fs, lv⟩ := w
  cases pl <;> cases wr <;> exact ⟨rfl, rfl, rfl, rfl, rfl, rfl, rfl⟩

theorem closeSession_idem_pair (w : World) :
    closeSession ((closeSession w).1) = ((closeSession w).1, Except.ok ()) := by
  obtain ⟨pl, wr, rec, sr, ch, fp, fs, lv⟩ := w
  cases pl <;> cases wr <;> rfl

/-- C8: `close_session` is idempotent: it always succeeds, calling it
twice in a row gives the same state both times with the second call
finding no pipeline or encoder to tear down, and on the never-initialized
backend it is a no-op returning success. -/
theorem close_session_idempotent :
    (∀ w, (closeSession w).2 = Except.ok ()) ∧
    (∀ w, closeSession ((closeSession w).1) = ((closeSession w).1, Except.ok ())) ∧
    (∀ w, (closeSession w).1.pipeline = none ∧ (closeSession w).1.writer = none) ∧
    closeSession initialWorld = (initialWorld, Except.ok ()) :=
  ⟨closeSession_snd, closeSession_idem_pair,
   fun w => ⟨(closeSession_fields w).1, (closeSession_fields w).2.1⟩, rfl⟩

/-- C10: the GStreamer backend's `enumerate_devices` always returns
exactly the fixed three-element list of logical device names, never
fails, and leaves the session state unchanged. -/
theorem enumerate_devices_fixed :
    (∀ w, enumerateDevices w = Except.ok ["default", "pipewire", "pulse"]) ∧
    (∀ env w, step env Op.enumerate w = w) :=
  ⟨fun _ => rfl, fun _ _ => rfl⟩

/-- C5: facade construction tries the GStreamer backend first on the
Linux target and on initialization failure falls back to CPAL without
propagating the error; on non-Linux targets it constructs CPAL directly;
`AudioRecorderImpl::new` never returns an error, so `AppData::new`
always holds exactly its result. -/
theorem facade_construction_never_fails :
    (∀ isLinux gstInitOk,
        AudioRecorderImpl.new isLinux gstInitOk =
          Except.ok (AppData.new isLinux gstInitOk)) ∧
    AudioRecorderImpl.new true true =
      Except.ok (AudioRecorderImpl.gstreamer initialWorld) ∧
    AudioRecorderImpl.new true false = Except.ok AudioRecorderImpl.cpal ∧
    (∀ gstInitOk,
        AudioRecorderImpl.new false gstInitOk = Except.ok AudioRecorderImpl.cpal) := by
  refine ⟨?_, rfl, rfl, ?_⟩
  · intro l g; cases l <;> cases g <;> rfl
  · intro g; cases g <;> rfl

/-- C6: `start_recording` with no initialized session fails with the
invalid-state error, returns the state completely unchanged, and in
particular leaves the atomic recording flag exactly as it was. -/
theorem start_without_init_fails (env : Env) (w : World)
    (h : w.pipeline = none) :
    startRecording env w = (w, Except.error "No recording session initialized") ∧
    (startRecording env w).1.is_recording = w.is_recording := by
  unfold startRecording
  rw [h]
  exact ⟨rfl, rfl⟩

/-- Witness for C6 at the fresh recorder state. -/
theorem start_without_init_fails_witness :
    startRecording envOk initialWorld =
      (initialWorld, Except.error "No recording session initialized") :=
  (start_without_init_fails envOk initialWorld rfl).1

theorem initSessionBody_is_recording (env : Env)
    (d f r : String) (p : Option Nat) (w : World)
    (h : w.is_recording = false) :
    (initSessionBody env d f r p w).1.is_recording = false := by
  simp only [initSessionBody]
  split
  · exact h
  · split
    · exact h
    · split_ifs <;> simp [h]

theorem initSession_is_recording (env : Env) (d f r : String)
    (p : Option Nat) (w : World) :
    (initSession env d f r p w).1.is_recording = false :=
  initSessionBody_is_recording env d f r p _ (closeSession_fields w).2.2.1

theorem stopRecording_is_recording (env : Env) (w : World) :
    (stopRecording env w).1.is_recording = false := by
  obtain ⟨pl, wr, rec, sr, ch, fp, fs, lv⟩ := w
  unfold stopRecording stopTeardown stopStoreFlag stopAfterHalt WavWriter.finalize
  cases pl <;> cases wr <;> split_ifs <;> rfl

theorem cancelRecording_spec (env : Env) (w : World) :
    (cancelRecording env w).2 = Except.ok () ∧
    (cancelRecording env w).1.is_recording = false ∧
    (cancelRecording env w).1.file_path = none ∧
    (cancelRecording env w).1.fs =
      (match w.file_path with
       | some fp => if env.removeOk then w.fs.erase fp else w.fs
       | none => w.fs) := by
  obtain ⟨pl, wr, rec, sr, ch, fp, fs, lv⟩ := w
  unfold cancelRecording closeSession
  cases pl <;> cases wr <;> cases fp <;> split_ifs <;>
    exact ⟨rfl, rfl, rfl, rfl⟩

/-- C2: sample buffers are written only inside the recording window.  A
buffer delivered while the shared atomic flag reads false changes
nothing (in particular the encoder's running sample counter does not
advance); the flag reads false initially, after `init_session`, after
`stop_recording`, after `cancel_recording` and after `close_session`;
and `stop_recording` is exactly the flag store followed by the pipeline
teardown, with the flag already false in the intermediate state, so the
flag is cleared before the pipeline is halted. -/
theorem callback_gated_by_flag :
    (∀ n w, w.is_recording = false → deliverBuffer n w = w) ∧
    (∀ n w, w.is_recording = false →
        writtenSamples (deliverBuffer n w) = writtenSamples w) ∧
    initialWorld.is_recording = false ∧
    (∀ env d f r p w, (initSession env d f r p w).1.is_recording = false) ∧
    (∀ env w, (stopRecording env w).1.is_recording = false) ∧
    (∀ env w, (cancelRecording env w).1.is_recording = false) ∧
    (∀ w, (closeSession w).1.is_recording = false) ∧
    (∀ env w, stopRecording env w = stopTeardown env (stopStoreFlag w) ∧
        (stopStoreFlag w).is_recording = false) := by
  refine ⟨?_, ?_, rfl, initSession_is_recording, stopRecording_is_recording,
    fun env w => (cancelRecording_spec env w).2.1,
    fun w => (closeSession_fields w).2.2.1,
    fun env w => ⟨rfl, rfl⟩⟩
  · intro n w h; unfold deliverBuffer; rw [h]; rfl
  · intro n w h; unfold deliverBuffer; rw [h]; rfl

/-- Witness for C2 at a concrete buffer delivery outside the window. -/
theorem callback_gated_by_flag_witness :
    deliverBuffer 5 initialWorld = initialWorld :=
  callback_gated_by_flag.1 5 initialWorld rfl

theorem createAudioSource_envOk (d : String) :
    ∃ k, createAudioSource envOk d = Except.ok k := by
  unfold createAudioSource
  simp only [show envOk.pipewiresrcOk = true from rfl,
    show envOk.pulsesrcOk = true from rfl, if_true]
  split_ifs <;> exact ⟨_, rfl⟩

theorem initSessionBody_ok (env : Env) (d f r : String) (p : Option Nat)
    (w : World)
    (h1 : env.wavCreateOk = true) (h2 : env.audioconvertOk = true)
    (h3 : env.audioresampleOk = true) (h4 : env.capsfilterOk = true)
    (h5 : env.appsinkOk = true) (h6 : env.addOk = true)
    (h7 : env.linkOk = true)
    (hsrc : ∃ k, createAudioSource env d = Except.ok k) :
    (initSessionBody env d f r p w).2 = Except.ok () := by
  obtain ⟨k, hk⟩ := hsrc
  simp only [initSessionBody, WavWriter.new, h1, if_true, hk]
  simp [h2, h3, h4, h5, h6, h7]

theorem initSession_envOk_ok (d f r : String) (p : Option Nat) (w : World) :
    (initSession envOk d f r p w).2 = Except.ok () :=
  initSessionBody_ok envOk d f r p _ rfl rfl rfl rfl rfl rfl rfl
    (createAudioSource_envOk d)

theorem initSessionBody_fail_fields (env : Env) (d f r : String)
    (p : Option Nat) (w : World)
    (hfail : (initSessionBody env d f r p w).2 ≠ Except.ok ()) :
    (initSessionBody env d f r p w).1.pipeline = w.pipeline ∧
    (initSessionBody env d f r p w).1.writer = w.writer ∧
    (initSessionBody env d f r p w).1.is_recording = w.is_recording ∧
    (initSessionBody env d f r p w).1.file_path = w.file_path ∧
    (initSessionBody env d f r p w).1.live = w.live := by
  revert hfail
  simp only [initSessionBody]
  split
  · intro _; exact ⟨rfl, rfl, rfl, rfl, rfl⟩
  · split
    · intro _; exact ⟨rfl, rfl, rfl, rfl, rfl⟩
    · split_ifs <;> intro hfail <;>
        first
          | exact ⟨rfl, rfl, rfl, rfl, rfl⟩
          | exact absurd rfl hfail

/-- C1 counterexample: file removal in `cancel_recording` is best-effort
(`std::fs::remove_file(file_path).ok()`): in an environment where the
removal fails, `cancel_recording` still returns success while the
destination file `out/rec1.wav` of the initialized session remains on
disk. -/
theorem cancel_remove_failure_counterexample :
    wInit.file_path = some "out/rec1.wav" ∧
    (cancelRecording envNoRemove wInit).2 = Except.ok () ∧
    "out/rec1.wav" ∈ (cancelRecording envNoRemove wInit).1.fs := by
  exact ⟨by decide, by decide, by decide⟩

/-- C1 amended: `cancel_recording` always returns success and afterwards
`get_current_recording_id()` returns `None`; file deletion is
best-effort, so the destination file is guaranteed gone only when the
filesystem removal itself succeeds. -/
theorem cancel_cleanliness (env : Env) (w : World) (p : String)
    (hnd : w.fs.Nodup) (hfp : w.file_path = some p)
    (hrm : env.removeOk = true) :
    (cancelRecording env w).2 = Except.ok () ∧
    p ∉ (cancelRecording env w).1.fs ∧
    getCurrentRecordingId (cancelRecording env w).1 = none := by
  obtain ⟨h1, h2, _h3, h4⟩ := cancelRecording_spec env w
  refine ⟨h1, ?_, ?_⟩
  · rw [h4, hfp]
    simp only [hrm, if_true]
    intro hm
    exact ((List.Nodup.mem_erase_iff hnd).1 hm).1 rfl
  · unfold getCurrentRecordingId
    rw [h2]
    rfl

/-- Witness for C1 amended: cancelling the concrete initialized session
in the cooperative environment removes `out/rec1.wav` and clears the
current recording id. -/
theorem cancel_cleanliness_witness :
    (cancelRecording envOk wInit).2 = Except.ok () ∧
    "out/rec1.wav" ∉ (cancelRecording envOk wInit).1.fs ∧
    getCurrentRecordingId (cancelRecording envOk wInit).1 = none :=
  cancel_cleanliness envOk wInit "out/rec1.wav" (by decide) (by decide) rfl

/-- C4 counterexample: `init_session` runs the implicit `close_session`
before any fallible work, so when WAV file creation then fails the
previously initialized session (its pipeline in particular) is already
gone: the backend is not in its prior state. -/
theorem init_failure_prior_state_counterexample :
    wInit.pipeline.isSome = true ∧
    (initSession envNoWav "default" "out" "rec2" none wInit).2 =
      Except.error "Failed to create WAV file" ∧
    (initSession envNoWav "default" "out" "rec2" none wInit).1.pipeline = none := by
  exact ⟨by decide, by decide, by decide⟩

/-- C4 amended: if `init_session` fails, the failure is fatal only to
that request: the backend is left in the closed (uninitialized) state —
no pipeline, no writer, flag down, no destination path — because any
prior session was already torn down by the implicit `close_session`,
and a subsequent `init_session` in a cooperative environment succeeds. -/
theorem init_failure_leaves_closed_state (env : Env) (d f r : String)
    (p : Option Nat) (w : World)
    (hfail : (initSession env d f r p w).2 ≠ Except.ok ()) :
    (initSession env d f r p w).1.pipeline = none ∧
    (initSession env d f r p w).1.writer = none ∧
    (initSession env d f r p w).1.is_recording = false ∧
    (initSession env d f r p w).1.file_path = none ∧
    (initSession envOk d f r p ((initSession env d f r p w).1)).2 =
      Except.ok () := by
  have hc := closeSession_fields w
  have hb := initSessionBody_fail_fields env d f r p ((closeSession w).1) hfail
  exact ⟨hb.1.trans hc.1, hb.2.1.trans hc.2.1, hb.2.2.1.trans hc.2.2.1,
    hb.2.2.2.1.trans hc.2.2.2.1, initSession_envOk_ok d f r p _⟩

/-- Witness for C4 amended at the concrete failing call on the
initialized session. -/
theorem init_failure_leaves_closed_state_witness :
    (initSession envNoWav "default" "out" "rec2" none wInit).1.pipeline = none ∧
    (initSession envNoWav "default" "out" "rec2" none wInit).1.writer = none ∧
    (initSession envNoWav "default" "out" "rec2" none wInit).1.is_recording = false ∧
    (initSession envNoWav "default" "out" "rec2" none wInit).1.file_path = none ∧
    (initSession envOk "default" "out" "rec2" none
        ((initSession envNoWav "default" "out" "rec2" none wInit).1)).2 =
      Except.ok () :=
  init_failure_leaves_closed_state envNoWav "default" "out" "rec2" none wInit
    (by decide)

theorem initSession_skip_close (env : Env) (d f r : String)
    (p : Option Nat) (w : World) :
    initSession env d f r p w = initSession env d f r p ((closeSession w).1) := by
  unfold initSession
  have h : (closeSession ((closeSession w).1)).1 = (closeSession w).1 := by
    rw [closeSession_idem_pair]
  rw [h]

theorem closeSession_inv (w : World) (h : sessionInv w) :
    sessionInv (closeSession w).1 ∧ (closeSession w).1.live = 0 := by
  obtain ⟨pl, wr, rec, sr, ch, fp, fs, lv⟩ := w
  cases pl <;> cases wr <;>
    simp [sessionInv, closeSession] at h ⊢ <;> omega

theorem initSessionBody_inv (env : Env) (d f r : String) (p : Option Nat)
    (w : World) (hpl : w.pipeline = none) (hlv : w.live = 0) :
    sessionInv (initSessionBody env d f r p w).1 := by
  simp only [initSessionBody]
  split
  · simp [sessionInv, hpl, hlv]
  · split
    · simp [sessionInv, hpl, hlv]
    · split_ifs <;> simp [sessionInv, hpl, hlv]

theorem startRecording_inv (env : Env) (w : World) (h : sessionInv w) :
    sessionInv (startRecording env w).1 := by
  obtain ⟨pl, wr, rec, sr, ch, fp, fs, lv⟩ := w
  cases pl <;> unfold startRecording <;> split_ifs <;>
    simpa [sessionInv] using h

theorem stopRecording_preserves (env : Env) (w : World) :
    (stopRecording env w).1.live = w.live ∧
    (stopRecording env w).1.pipeline.isSome = w.pipeline.isSome := by
  obtain ⟨pl, wr, rec, sr, ch, fp, fs, lv⟩ := w
  unfold stopRecording stopTeardown stopStoreFlag stopAfterHalt WavWriter.finalize
  cases pl <;> cases wr <;> split_ifs <;> exact ⟨rfl, rfl⟩

theorem cancelRecording_inv (env : Env) (w : World) (h : sessionInv w) :
    (cancelRecording env w).1.pipeline = none ∧
    (cancelRecording env w).1.live = 0 := by
  obtain ⟨pl, wr, rec, sr, ch, fp, fs, lv⟩ := w
  unfold cancelRecording closeSession
  cases pl <;> cases wr <;> cases fp <;> split_ifs <;>
    refine ⟨rfl, ?_⟩ <;> simp_all [sessionInv]

theorem deliverBuffer_preserves (n : Nat) (w : World) :
    (deliverBuffer n w).live = w.live ∧
    (deliverBuffer n w).pipeline = w.pipeline := by
  obtain ⟨pl, wr, rec, sr, ch, fp, fs, lv⟩ := w
  unfold deliverBuffer
  cases rec <;> cases wr <;> exact ⟨rfl, rfl⟩

theorem sessionInv_step (env : Env) (op : Op) (w : World)
    (h : sessionInv w) : sessionInv (step env op w) := by
  cases op with
  | initSes d f r p =>
      exact initSessionBody_inv env d f r p _ (closeSession_fields w).1
        (closeSession_inv w h).2
  | start => exact startRecording_inv env w h
  | stop =>
      obtain ⟨h1, h2⟩ := stopRecording_preserves env w
      unfold sessionInv at h ⊢
      rw [show step env Op.stop w = (stopRecording env w).1 from rfl, h1, h2]
      exact h
  | cancel =>
      obtain ⟨h1, h2⟩ := cancelRecording_inv env w h
      unfold sessionInv
      rw [show step env Op.cancel w = (cancelRecording env w).1 from rfl, h1, h2]
      rfl
  | close => exact (closeSession_inv w h).1
  | enumerate => exact h
  | getId => exact h
  | deliver n =>
      obtain ⟨h1, h2⟩ := deliverBuffer_preserves n w
      unfold sessionInv at h ⊢
      rw [show step env (Op.deliver n) w = deliverBuffer n w from rfl, h1, h2]
      exact h

theorem runTrace_inv (tr : List (Env × Op)) (w : World) (h : sessionInv w) :
    sessionInv (runTrace tr w) := by
  induction tr generalizing w with
  | nil => exact h
  | cons p rest ih => exact ih _ (sessionInv_step p.1 p.2 w h)

/-- C3: `init_session` first performs the equivalent of `close_session`
(pre-closing is absorbed), it succeeds from every state in a cooperative
environment, and along every trace of operations from the fresh recorder
at most one native pipeline object (hence one backend session) is live
at a time. -/
theorem init_session_single_session :
    (∀ env d f r p w,
        initSession env d f r p w =
          initSession env d f r p ((closeSession w).1)) ∧
    (∀ d f r p w, (initSession envOk d f r p w).2 = Except.ok ()) ∧
    (∀ tr, (runTrace tr initialWorld).live ≤ 1) := by
  refine ⟨initSession_skip_close, initSession_envOk_ok, ?_⟩
  intro tr
  have h := runTrace_inv tr initialWorld rfl
  unfold sessionInv at h
  rw [h]
  cases hb : (runTrace tr initialWorld).pipeline.isSome <;> simp

theorem initSessionBody_ok_fields (env : Env) (d f r : String)
    (p : Option Nat) (w : World)
    (hok : (initSessionBody env d f r p w).2 = Except.ok ()) :
    (initSessionBody env d f r p w).1 =
      { w with
          pipeline := some { gstate := GstState.null,
                             caps := { format := "F32LE",
                                       rate := toI32 (resolvedSampleRate p),
                                       channels := 1,
                                       layout := "interleaved" } },
          writer := some { path := pathJoin f (r ++ ".wav"),
                           sample_rate := resolvedSampleRate p,
                           channels := 1, samples_written := 0,
                           finalized := false },
          is_recording := false,
          sample_rate := resolvedSampleRate p, channels := 1,
          file_path := some (pathJoin f (r ++ ".wav")),
          fs := w.fs.insert (pathJoin f (r ++ ".wav")),
          live := w.live + 1 } := by
  revert hok
  simp only [initSessionBody]
  split
  · intro h; exact Except.noConfusion h
  next wr fs' heq =>
    simp only [WavWriter.new] at heq
    split_ifs at heq
    · injection heq with heq
      injection heq with h1 h2
      subst h1
      subst h2
      split
      · intro h; exact Except.noConfusion h
      · split_ifs <;> intro h <;>
          first
            | exact h.elim
            | exact Except.noConfusion h
            | rfl

/-- C9 counterexample: the caps filter stores the resolved rate through
an `as i32` cast, so a (representable) preferred rate of `2^31` yields a
caps rate of `-2^31`, not the resolved rate; and the destination path is
built with `PathBuf::join`, so a recording id beginning with `/` replaces
the output folder instead of being appended under it. -/
theorem init_session_format_counterexample :
    (resolvedSampleRate (some 2147483648) = 2147483648 ∧
     (initSession envOk "default" "out" "rec" (some 2147483648)
         initialWorld).2 = Except.ok () ∧
     Option.map Pipeline.caps
       (initSession envOk "default" "out" "rec" (some 2147483648)
           initialWorld).1.pipeline =
       some { format := "F32LE", rate := -2147483648, channels := 1,
              layout := "interleaved" } ∧
     (-2147483648 : Int) ≠ (2147483648 : Int)) ∧
    ((initSession envOk "default" "out" "/abs" none initialWorld).2 =
       Except.ok () ∧
     (initSession envOk "default" "out" "/abs" none initialWorld).1.file_path =
       some "/abs.wav" ∧
     "/abs.wav" ≠ "out" ++ "/" ++ "/abs" ++ ".wav") := by
  exact ⟨⟨rfl, by decide, by decide, by decide⟩,
         ⟨by decide, by decide, by decide⟩⟩

/-- C9 amended: a successful `init_session` resolves the sample rate to
the preference (else 16000), fixes the channel count to 1, sets the
destination path to `PathBuf::join(output_folder, recording_id ++
".wav")` — which equals `<output_folder>/<recording_id>.wav` whenever
the id is not absolute and the folder is a nonempty path without a
trailing separator — and pins the caps filter to F32LE, mono,
interleaved at the resolved rate reduced to a signed 32-bit value, which
equals the resolved rate whenever it is below `2^31`. -/
theorem init_session_format (env : Env) (d f r : String) (p : Option Nat)
    (w : World)
    (hok : (initSession env d f r p w).2 = Except.ok ()) :
    (initSession env d f r p w).1.sample_rate = resolvedSampleRate p ∧
    (initSession env d f r p w).1.channels = 1 ∧
    (initSession env d f r p w).1.file_path =
      some (pathJoin f (r ++ ".wav")) ∧
    Option.map Pipeline.caps (initSession env d f r p w).1.pipeline =
      some { format := "F32LE", rate := toI32 (resolvedSampleRate p),
             channels := 1, layout := "interleaved" } ∧
    (isAbsolutePath (r ++ ".wav") = false → endsWithSep f = false →
      f ≠ "" → pathJoin f (r ++ ".wav") = f ++ "/" ++ (r ++ ".wav")) ∧
    (resolvedSampleRate p < 2147483648 →
      toI32 (resolvedSampleRate p) = ((resolvedSampleRate p : Nat) : Int)) := by
  have hb := initSessionBody_ok_fields env d f r p ((closeSession w).1) hok
  unfold initSession
  rw [hb]
  refine ⟨rfl, rfl, rfl, rfl, ?_, ?_⟩
  · intro h1 h2 h3
    simp [pathJoin, h1, h2, h3]
  · intro hlt
    have hm : resolvedSampleRate p % 4294967296 = resolvedSampleRate p :=
      Nat.mod_eq_of_lt (by omega)
    simp [toI32, hm, hlt]

/-- Witness for C9 amended at a concrete successful call. -/
theorem init_session_format_witness :
    (initSession envOk "default" "out" "rec1" none initialWorld).1.sample_rate = 16000 ∧
    (initSession envOk "default" "out" "rec1" none initialWorld).1.file_path =
      some "out/rec1.wav" ∧
    pathJoin "out" ("rec1" ++ ".wav") = "out" ++ "/" ++ ("rec1" ++ ".wav") ∧
    toI32 (resolvedSampleRate (none : Option Nat)) =
      ((resolvedSampleRate (none : Option Nat) : Nat) : Int) := by
  have h := init_session_format envOk "default" "out" "rec1" none initialWorld rfl
  exact ⟨h.1, h.2.2.1, h.2.2.2.2.1 (by decide) (by decide) (by decide),
         h.2.2.2.2.2 (by decide)⟩

/-- C7: `stop_recording` in a cooperative environment succeeds from
every backend state; called right after a successful `init_session` it
returns a finished empty recording (duration zero, the session's format
and destination path); and on an uninitialized session (no pipeline, no
writer) it is total for every environment: it clears the flag and
returns success with a zeroed recording — it neither panics nor errors. -/
theorem stop_recording_validity :
    (∀ w, ∃ rec, (stopRecording envOk w).2 = Except.ok rec) ∧
    (∀ d f r p w,
        (stopRecording envOk (initSession envOk d f r p w).1).2 =
          Except.ok { audio_data := [], sample_rate := resolvedSampleRate p,
                      channels := 1, duration_seconds := 0,
                      file_path := some (pathJoin f (r ++ ".wav")) }) ∧
    (∀ env w, w.pipeline = none → w.writer = none →
        stopRecording env w =
          ({ w with is_recording := false },
           Except.ok { audio_data := [], sample_rate := w.sample_rate,
                       channels := w.channels, duration_seconds := 0,
                       file_path := w.file_path })) := by
  refine ⟨?_, ?_, ?_⟩
  · intro w
    obtain ⟨pl, wr, rec, sr, ch, fp, fs, lv⟩ := w
    unfold stopRecording stopTeardown stopStoreFlag stopAfterHalt WavWriter.finalize
    cases pl <;> cases wr <;> exact ⟨_, rfl⟩
  · intro d f r p w
    have hb := initSessionBody_ok_fields envOk d f r p ((closeSession w).1)
      (initSession_envOk_ok d f r p w)
    show (stopRecording envOk
        (initSessionBody envOk d f r p ((closeSession w).1)).1).2 = _
    rw [hb]
    simp [stopRecording, stopTeardown, stopStoreFlag, stopAfterHalt,
      WavWriter.finalize, WavWriter.durationSeconds,
      show envOk.setNullOk = true from rfl,
      show envOk.lockOk = true from rfl,
      show envOk.finalizeOk = true from rfl]
  · intro env w h1 h2
    unfold stopRecording stopTeardown stopStoreFlag stopAfterHalt
    simp [h1, h2]

/-- Witness for C7 at the uninitialized recorder with an arbitrary
(non-cooperative) environment. -/
theorem stop_recording_validity_witness :
    stopRecording envNoWav initialWorld =
      (initialWorld, Except.ok { audio_data := [], sample_rate := 0,
                                 channels := 0, duration_seconds := 0,
                                 file_path := none }) :=
  stop_recording_validity.2.2 envNoWav initialWorld rfl rfl

end Whispering
